import Mathlib

/-!
Verification of the reminder-scheduling engine of the interview-tracking bot
(`app/services/notification_service.py` and `app/database/repositories.py`).

Timestamps and durations are modelled as rationals (seconds); Python floats
are exact binary rationals and `datetime` arithmetic is exact, so `ℚ` is a
faithful carrier.  Times of day (`datetime.time`) are modelled as
microseconds since midnight (`Nat`), the exact resolution of
`datetime.time`; Python compares `time` values lexicographically on
(hour, minute, second, microsecond), which coincides with comparison of
the total microseconds-since-midnight value.  The stores (SQLAlchemy repositories)
are modelled as lists of records, SQL `WHERE` as `List.filter`, `ORDER BY`
as a sort, and row insertion as list append.  The Telegram transport
(`bot.send_message`) is modelled by an oracle `ok : TransportCall → Bool`
telling, for each attempted call, whether it succeeds or raises.
-/

namespace InterviewBot

/-- Interview status enumeration (`app/database/models.py`, `InterviewStatus`). -/
inductive InterviewStatus
  | scheduled
  | completed
  | cancelled
  | rescheduled
  | offer
  | rejected
  | waiting_feedback
deriving DecidableEq

/-- The fields of `Interview` (`app/database/models.py`) that the
notification engine reads. `interview_date` is a UTC timestamp in seconds. -/
structure Interview where
  id : Nat
  user_id : Nat
  interview_date : ℚ
  status : InterviewStatus
deriving DecidableEq

/-- Model of `NotificationSettings` (`app/database/models.py`): per-user reminder
policy. `notification_times` is the list of offsets in hours (floats in the
source); quiet-hours bounds are optional `HH:MM` strings. -/
structure NotificationSettings where
  enabled : Bool
  notification_times : List ℚ
  quiet_hours_enabled : Bool
  quiet_hours_start : Option String
  quiet_hours_end : Option String
deriving DecidableEq

/-- A row of `NotificationLog` (`app/database/models.py`): the delivery
record appended by `NotificationLogRepository.create`. -/
structure NotificationLog where
  interview_id : Nat
  notification_type : String
  notification_time_hours : ℚ
  success : Bool
  error_message : Option String
deriving DecidableEq

/-- A `FollowUp` row (`app/database/models.py`): one post-interview reminder
with a `sent` flag. -/
structure FollowUp where
  id : Nat
  interview_id : Nat
  reminder_date : ℚ
  message : String
  sent : Bool
deriving DecidableEq

/-- One attempted `bot.send_message` call, tagged by which reminder it
delivers.  A call is recorded whether or not it succeeds (a failing call is
one that raises after being attempted). -/
inductive TransportCall
  | interview (interview_id : Nat) (hours_before : ℚ)
  | followup (followup_id : Nat)
deriving DecidableEq

/-- Embeds `InterviewRepository.get_upcoming_interviews`
(`app/database/repositories.py` lines 303-316): interviews with
`interview_date >= utcnow()` and `status == SCHEDULED`, ordered by date. -/
def get_upcoming_interviews (interviews : List Interview) (now : ℚ) : List Interview :=
  List.insertionSort (fun a b => a.interview_date ≤ b.interview_date)
    (interviews.filter fun iv =>
      decide (now ≤ iv.interview_date) && decide (iv.status = InterviewStatus.scheduled))

/-- Embeds `NotificationLogRepository.was_sent` (`app/database/repositories.py`
lines 622-637): is there a log row for this (interview, offset) key with
`success == True`?  (The source fetches with `scalar_one_or_none`, which
assumes at most one matching row; reachable stores satisfy this because a
success record for a key is only ever written when none exists yet.) -/
def was_sent (log : List NotificationLog) (interview_id : Nat)
    (notification_time_hours : ℚ) : Bool :=
  log.any fun r =>
    decide (r.interview_id = interview_id) &&
    decide (r.notification_time_hours = notification_time_hours) &&
    r.success

/-- Embeds `NotificationLogRepository.create` (`app/database/repositories.py`
lines 601-620): append one delivery record to the log. -/
def notification_log_create (log : List NotificationLog) (interview_id : Nat)
    (notification_type : String) (notification_time_hours : ℚ)
    (success : Bool) (error_message : Option String) : List NotificationLog :=
  log ++ [⟨interview_id, notification_type, notification_time_hours, success, error_message⟩]

/-- Embeds `FollowUpRepository.get_pending` (`app/database/repositories.py` lines
484-499): follow-ups with `sent == False` and `reminder_date <= utcnow()`,
ordered by `reminder_date` ascending. -/
def get_pending (followups : List FollowUp) (now : ℚ) : List FollowUp :=
  List.insertionSort (fun a b => a.reminder_date ≤ b.reminder_date)
    (followups.filter fun f => !f.sent && decide (f.reminder_date ≤ now))

/-- Embeds `FollowUpRepository.mark_sent` (`app/database/repositories.py` lines
501-513): set `sent := true` on the row with the given id (ids are a
primary key, so at most one row matches in a reachable store). -/
def mark_sent (followups : List FollowUp) (followup_id : Nat) : List FollowUp :=
  followups.map fun f => if f.id = followup_id then { f with sent := true } else f

/-- Parse a two-character zero-padded decimal field such as `"08"`. -/
def two_digit_num : List Char → Option Nat
  | [a, b] =>
    if a.isDigit && b.isDigit then some ((a.toNat - 48) * 10 + (b.toNat - 48)) else none
  | _ => none

/-- Parse the fractional-second digits that follow the `.` or `,` decimal
sign: at least one ASCII digit, any length, truncated to microsecond
precision (the first six digits, right-padded with zeros), exactly as
CPython does. -/
def parse_microseconds (cs : List Char) : Option Nat :=
  if cs.isEmpty then none
  else if cs.all Char.isDigit then
    let ds := cs.take 6
    some ((ds.foldl (fun a c => a * 10 + (c.toNat - 48)) 0) * 10 ^ (6 - ds.length))
  else none

/-- Parse the whole-second part of an ISO time: `HH`, `HHMM`, `HH:MM`,
`HHMMSS` or `HH:MM:SS` with two-digit zero-padded ASCII fields and
all-or-none separators, validated to `hh <= 23`, `mm <= 59`, `ss <= 59`
(the ranges enforced by the `datetime.time` constructor). -/
def parse_time_core (cs : List Char) : Option (Nat × Nat × Nat) :=
  let check := fun (hh mm ss : Nat) =>
    if hh ≤ 23 && mm ≤ 59 && ss ≤ 59 then some (hh, mm, ss) else none
  match cs with
  | [a, b] =>
    match two_digit_num [a, b] with
    | some hh => check hh 0 0
    | none => none
  | [a, b, c, d] =>
    match two_digit_num [a, b], two_digit_num [c, d] with
    | some hh, some mm => check hh mm 0
    | _, _ => none
  | [a, b, ':', c, d] =>
    match two_digit_num [a, b], two_digit_num [c, d] with
    | some hh, some mm => check hh mm 0
    | _, _ => none
  | [a, b, c, d, e, f] =>
    match two_digit_num [a, b], two_digit_num [c, d], two_digit_num [e, f] with
    | some hh, some mm, some ss => check hh mm ss
    | _, _, _ => none
  | [a, b, ':', c, d, ':', e, f] =>
    match two_digit_num [a, b], two_digit_num [c, d], two_digit_num [e, f] with
    | some hh, some mm, some ss => check hh mm ss
    | _, _, _ => none
  | _ => none

/-- Parse a timezone-naive ISO time to microseconds since midnight: an
optional leading `T`, the whole-second core, and an optional `.`- or
`,`-introduced fraction. -/
def parse_naive_time (cs : List Char) : Option Nat :=
  let body := match cs with
    | 'T' :: rest => rest
    | _ => cs
  let not_dec := fun (c : Char) => !(c == '.' || c == ',')
  let micros := fun (t : Nat × Nat × Nat) =>
    t.1 * 3600000000 + t.2.1 * 60000000 + t.2.2 * 1000000
  match body.dropWhile not_dec with
  | [] =>
    match parse_time_core body with
    | some t => some (micros t)
    | none =>
      -- CPython also accepts the compact `HHMMSS` form followed directly
      -- by two or more fraction digits with no decimal sign (a lone
      -- seventh digit is rejected by its component scanner).
      if 8 ≤ body.length then
        match parse_time_core (body.take 6), parse_microseconds (body.drop 6) with
        | some t, some ff => some (micros t + ff)
        | _, _ => none
      else none
  | _ :: frac =>
    match parse_time_core (body.takeWhile not_dec), parse_microseconds frac with
    | some t, some ff => some (micros t + ff)
    | _, _ => none

/-- Model of Python's `datetime.time.fromisoformat` (CPython 3.11 C
parser, the version family this aiogram-3 codebase runs on), returning
microseconds since midnight for a timezone-naive time.  The accepted
naive grammar, verified against CPython, is
`[T] HH [[:]MM [[:]SS]] [(.|,) digits]` — plus compact `HHMMSS` followed
directly by two or more fraction digits — with two-digit zero-padded
ASCII fields, all-or-none separators, `hh <= 23`, `mm <= 59`, `ss <= 59`,
and the fraction truncated to six digits.  A string containing `+`, `-`, `Z`
or `z` never parses to a naive time: Python either raises `ValueError` or
returns a timezone-aware time, and an aware bound always makes
`_is_quiet_hours` return `False`, because every comparison chain there
involves the naive `datetime.now().time()` and raises `TypeError` into
the handler; both outcomes are therefore folded into `none`, which is
observationally identical for the quiet-hours check. -/
def time_fromisoformat (s : String) : Option Nat :=
  if s.data.any (fun c => c == '+' || c == '-' || c == 'Z' || c == 'z') then none
  else parse_naive_time s.data

/-- Embeds `NotificationService._is_quiet_hours` (`notification_service.py` lines
113-130).  `now_tod` is `datetime.now().time()` in microseconds since
midnight.
A `None` or empty bound returns `False` immediately; a parse failure raises
inside the `try` and the handler returns `False`. -/
def is_quiet_hours (start stop : Option String) (now_tod : Nat) : Bool :=
  match start, stop with
  | some s, some e =>
    if s.data.isEmpty || e.data.isEmpty then false
    else
      match time_fromisoformat s, time_fromisoformat e with
      | some start_time, some end_time =>
        if start_time < end_time then
          decide (start_time ≤ now_tod) && decide (now_tod ≤ end_time)
        else
          decide (now_tod ≥ start_time) || decide (now_tod ≤ end_time)
      | _, _ => false
  | _, _ => false

/-- The quiet-hours guard of `_process_interview_notifications`
(`notification_service.py` lines 56-58): the evaluator consults
`_is_quiet_hours` only when `quiet_hours_enabled` is set. -/
def quiet_hours_blocks (settings : NotificationSettings) (now_tod : Nat) : Bool :=
  settings.quiet_hours_enabled &&
    is_quiet_hours settings.quiet_hours_start settings.quiet_hours_end now_tod

/-- The time-window test of `_send_notification_if_needed`
(`notification_service.py` lines 147-152): `notification_time =
interview_date - timedelta(hours=hours_before)`, `time_diff = (now -
notification_time).total_seconds()`, fire iff `-60 <= time_diff <= 60`. -/
def should_fire_now (interview_date hours_before now : ℚ) : Bool :=
  let notification_time := interview_date - hours_before * 3600
  let time_diff := now - notification_time
  decide (-60 ≤ time_diff) && decide (time_diff ≤ 60)

/-- The state threaded through one interview-reminder scan: the
`NotificationLog` store plus the list of transport calls attempted so far. -/
structure DispatchState where
  log : List NotificationLog
  calls : List TransportCall
deriving DecidableEq

/-- Embeds `NotificationService._send_notification` (`notification_service.py`
lines 160-200): attempt the transport call; on success append a success
log row, on a raised exception append a failure row carrying `str(e)`.
`ok` is the transport oracle and `err` gives the exception text. -/
def send_notification (ok : TransportCall → Bool) (err : TransportCall → String)
    (st : DispatchState) (iv : Interview) (hours_before : ℚ) : DispatchState :=
  let c := TransportCall.interview iv.id hours_before
  if ok c then
    { log := notification_log_create st.log iv.id "interview" hours_before true none,
      calls := st.calls ++ [c] }
  else
    { log := notification_log_create st.log iv.id "interview" hours_before false (some (err c)),
      calls := st.calls ++ [c] }

/-- Embeds `NotificationService._send_notification_if_needed`
(`notification_service.py` lines 132-158): skip if a success record exists
for the (interview, offset) key, otherwise dispatch when the tolerance
window matches. -/
def send_notification_if_needed (ok : TransportCall → Bool) (err : TransportCall → String)
    (now : ℚ) (st : DispatchState) (iv : Interview) (hours_before : ℚ) : DispatchState :=
  if was_sent st.log iv.id hours_before then st
  else if should_fire_now iv.interview_date hours_before now then
    send_notification ok err st iv hours_before
  else st

/-- Embeds `NotificationService._process_interview_notifications`
(`notification_service.py` lines 45-70) for one interview.  `settingsOf`
models `NotificationSettingsRepository.get_by_user_id`; an `Except.error`
models an exception raised by the settings fetch, which the per-item
`try/except` catches, leaving the state unchanged and letting the scan
continue.  `now` is `utcnow()` in seconds and `now_tod` is
`datetime.now().time()` in microseconds since midnight. -/
def process_interview_notifications
    (settingsOf : Nat → Except String (Option NotificationSettings))
    (ok : TransportCall → Bool) (err : TransportCall → String)
    (now : ℚ) (now_tod : Nat) (st : DispatchState) (iv : Interview) : DispatchState :=
  match settingsOf iv.user_id with
  | .error _ => st
  | .ok none => st
  | .ok (some settings) =>
    if !settings.enabled then st
    else if quiet_hours_blocks settings now_tod then st
    else settings.notification_times.foldl
      (fun st hours_before => send_notification_if_needed ok err now st iv hours_before) st

/-- Embeds `NotificationService._send_followup_notification`
(`notification_service.py` lines 83-111): attempt the transport call; only
on success is `mark_sent` reached; a raised exception is caught and leaves
the store untouched. -/
def send_followup_notification (ok : TransportCall → Bool)
    (followups : List FollowUp) (calls : List TransportCall) (f : FollowUp) :
    List FollowUp × List TransportCall :=
  let c := TransportCall.followup f.id
  if ok c then (mark_sent followups f.id, calls ++ [c])
  else (followups, calls ++ [c])

/-- Embeds `NotificationService._process_followup_notifications`
(`notification_service.py` lines 72-81): fetch the pending follow-ups once,
then process each in order. -/
def process_followup_notifications (ok : TransportCall → Bool) (now : ℚ)
    (followups : List FollowUp) (calls : List TransportCall) :
    List FollowUp × List TransportCall :=
  (get_pending followups now).foldl
    (fun acc f => send_followup_notification ok acc.1 acc.2 f) (followups, calls)

/-- The final state of one full scan. -/
structure ScanState where
  log : List NotificationLog
  followups : List FollowUp
  calls : List TransportCall
deriving DecidableEq

/-- Embeds `NotificationService.check_and_send_notifications`
(`notification_service.py` lines 31-43): one tick of the scan orchestrator
over the interview store and the follow-up store. -/
def check_and_send_notifications
    (settingsOf : Nat → Except String (Option NotificationSettings))
    (ok : TransportCall → Bool) (err : TransportCall → String)
    (interviews : List Interview) (followups : List FollowUp)
    (log : List NotificationLog) (now : ℚ) (now_tod : Nat) : ScanState :=
  let upcoming := get_upcoming_interviews interviews now
  let st := upcoming.foldl
    (process_interview_notifications settingsOf ok err now now_tod) ⟨log, []⟩
  let fu := process_followup_notifications ok now followups st.calls
  ⟨st.log, fu.1, fu.2⟩

/-- Number of success delivery records in the log for one
(interview, offset) key — the measure used by the idempotence claims. -/
def success_count (log : List NotificationLog) (interview_id : Nat)
    (notification_time_hours : ℚ) : Nat :=
  log.countP fun r =>
    decide (r.interview_id = interview_id) &&
    decide (r.notification_time_hours = notification_time_hours) &&
    r.success

/-! ### Helper lemmas -/

/-- A string that parses as a time is not empty. -/
lemma data_ne_nil_of_time_fromisoformat {s : String} {v : Nat}
    (h : time_fromisoformat s = some v) : s.data.isEmpty = false := by
  cases hd : s.data with
  | nil => rw [time_fromisoformat, hd] at h; simp [parse_naive_time, parse_time_core] at h
  | cons c cs => simp [List.isEmpty]

/-- Lemma: `was_sent` distributes over appending records to the log. -/
lemma was_sent_append (log extra : List NotificationLog) (iid : Nat) (hb : ℚ) :
    was_sent (log ++ extra) iid hb = (was_sent log iid hb || was_sent extra iid hb) := by
  simp [was_sent, List.any_append]

/-- A key that `was_sent` reports as unsent has no success records at all. -/
lemma success_count_eq_zero_of_not_was_sent {log : List NotificationLog} {iid : Nat} {hb : ℚ}
    (h : was_sent log iid hb = false) : success_count log iid hb = 0 := by
  rw [success_count, List.countP_eq_zero]
  intro r hr
  rw [was_sent, List.any_eq_false] at h
  exact fun hp => h r hr hp

/-! ### Claims -/

/-- Claim C2: the Time-Window Matcher fires exactly when the distance
between `now` and `notifyAt = interview_date - hours_before` is at most
the 60-second tolerance, and therefore does not fire for any `now` farther
away than the tolerance. -/
theorem should_fire_now_iff_within_tolerance
    (interview_date hours_before now : ℚ) :
    should_fire_now interview_date hours_before now = true ↔
      |now - (interview_date - hours_before * 3600)| ≤ 60 := by
  rw [abs_le]
  simp [should_fire_now]

/-- Claim C3: for parseable bounds, the Quiet-Hours Evaluator suppresses on
`start <= now <= end` for same-day intervals (`start < end`) and on
`now >= start OR now <= end` for midnight-wrapping intervals
(`start >= end`); with quiet hours disabled the evaluator is never
consulted, so nothing is suppressed. -/
theorem quiet_hours_evaluator_spec :
    (∀ (start stop : String) (s e now_tod : Nat),
        time_fromisoformat start = some s → time_fromisoformat stop = some e →
        (is_quiet_hours (some start) (some stop) now_tod = true ↔
          if s < e then s ≤ now_tod ∧ now_tod ≤ e else now_tod ≥ s ∨ now_tod ≤ e))
    ∧ (∀ (settings : NotificationSettings) (now_tod : Nat),
        settings.quiet_hours_enabled = false →
        quiet_hours_blocks settings now_tod = false) := by
  constructor
  · intro start stop s e now_tod h1 h2
    have hs := data_ne_nil_of_time_fromisoformat h1
    have he := data_ne_nil_of_time_fromisoformat h2
    by_cases hlt : s < e
    · simp [is_quiet_hours, hs, he, h1, h2, hlt]
    · simp [is_quiet_hours, hs, he, h1, h2, hlt]
  · intro settings now_tod h
    simp [quiet_hours_blocks, h]

/-- Witness for C3: `22:00`-`08:00` wraps midnight and suppresses 23:30;
a policy with `quiet_hours_enabled = false` suppresses nothing. -/
theorem quiet_hours_evaluator_spec_witness :
    is_quiet_hours (some "22:00") (some "08:00") 84600000000 = true
    ∧ quiet_hours_blocks ⟨true, [24], false, some "22:00", some "08:00"⟩ 84600000000 = false :=
  ⟨(quiet_hours_evaluator_spec.1 "22:00" "08:00" 79200000000 28800000000 84600000000
      (by decide) (by decide)).mpr (by decide),
   quiet_hours_evaluator_spec.2 ⟨true, [24], false, some "22:00", some "08:00"⟩
     84600000000 rfl⟩

/-- Claim C10: interview-reminder scanning fetches exactly the interviews
with `interview_date >= now` and `status = SCHEDULED`; an interview in any
other status is never scanned even while its date is in the future. -/
theorem get_upcoming_interviews_mem
    (interviews : List Interview) (now : ℚ) (iv : Interview) :
    iv ∈ get_upcoming_interviews interviews now ↔
      iv ∈ interviews ∧ now ≤ iv.interview_date ∧ iv.status = InterviewStatus.scheduled := by
  rw [get_upcoming_interviews, (List.perm_insertionSort _ _).mem_iff, List.mem_filter]
  simp

/-- Claim C5: `was_sent` reports a key as delivered exactly when the log
holds a success record for it; appending a failure record changes nothing,
so a later tick whose window still matches performs the transport call
again for that offset. -/
theorem was_sent_success_only (log : List NotificationLog) (iid : Nat) (hb : ℚ) :
    (was_sent log iid hb = true ↔
      ∃ r ∈ log, r.interview_id = iid ∧ r.notification_time_hours = hb ∧ r.success = true)
    ∧ (∀ r : NotificationLog, r.success = false →
        was_sent (log ++ [r]) iid hb = was_sent log iid hb)
    ∧ (∀ (ok : TransportCall → Bool) (err : TransportCall → String) (now : ℚ)
        (calls : List TransportCall) (iv : Interview),
        was_sent log iv.id hb = false →
        should_fire_now iv.interview_date hb now = true →
        (send_notification_if_needed ok err now ⟨log, calls⟩ iv hb).calls
          = calls ++ [TransportCall.interview iv.id hb]) := by
  refine ⟨?_, ?_, ?_⟩
  · simp [was_sent, List.any_eq_true, and_assoc]
  · intro r hr
    rw [was_sent_append]
    simp [was_sent, hr]
  · intro ok err now calls iv h1 h2
    rw [send_notification_if_needed]
    simp only [h1, h2, if_false, if_true, Bool.false_eq_true, reduceIte]
    rw [send_notification]
    by_cases hok : ok (.interview iv.id hb) <;> simp [hok]

/-- Witness for C5: on an empty log nothing is delivered; a failed attempt
still does not count; and the due window then re-fires the offset. -/
theorem was_sent_success_only_witness :
    was_sent ([⟨7, "interview", 24, false, some "err"⟩] : List NotificationLog) 7 24
      = was_sent ([] : List NotificationLog) 7 24
    ∧ (send_notification_if_needed (fun _ => true) (fun _ => "e") 0
        ⟨[], []⟩ ⟨7, 1, 86400, InterviewStatus.scheduled⟩ 24).calls
        = [TransportCall.interview 7 24] :=
  ⟨(was_sent_success_only [] 7 24).2.1 ⟨7, "interview", 24, false, some "err"⟩ rfl,
   (was_sent_success_only [] 7 24).2.2 (fun _ => true) (fun _ => "e") 0 []
     ⟨7, 1, 86400, InterviewStatus.scheduled⟩ rfl (by norm_num [should_fire_now])⟩

/-- Claim C8: the Dispatcher writes exactly one success record when the
transport call succeeds, and exactly one failure record carrying the error
detail — and no success record — when the transport call raises. -/
theorem send_notification_outcome (ok : TransportCall → Bool)
    (err : TransportCall → String) (st : DispatchState) (iv : Interview) (hb : ℚ) :
    (ok (.interview iv.id hb) = true →
      send_notification ok err st iv hb =
        ⟨st.log ++ [⟨iv.id, "interview", hb, true, none⟩],
         st.calls ++ [.interview iv.id hb]⟩)
    ∧ (ok (.interview iv.id hb) = false →
      send_notification ok err st iv hb =
        ⟨st.log ++ [⟨iv.id, "interview", hb, false, some (err (.interview iv.id hb))⟩],
         st.calls ++ [.interview iv.id hb]⟩
      ∧ success_count (send_notification ok err st iv hb).log iv.id hb
          = success_count st.log iv.id hb) := by
  constructor
  · intro h
    simp [send_notification, notification_log_create, h]
  · intro h
    refine ⟨by simp [send_notification, notification_log_create, h], ?_⟩
    simp [send_notification, notification_log_create, h, success_count, List.countP_append]

/-- Witness for C8: one concrete successful dispatch and one concrete
failed dispatch. -/
theorem send_notification_outcome_witness :
    send_notification (fun _ => true) (fun _ => "boom") ⟨[], []⟩
        ⟨3, 1, 7200, InterviewStatus.scheduled⟩ 1 =
      ⟨[⟨3, "interview", 1, true, none⟩], [.interview 3 1]⟩
    ∧ send_notification (fun _ => false) (fun _ => "boom") ⟨[], []⟩
        ⟨3, 1, 7200, InterviewStatus.scheduled⟩ 1 =
      ⟨[⟨3, "interview", 1, false, some "boom"⟩], [.interview 3 1]⟩ :=
  ⟨(send_notification_outcome (fun _ => true) (fun _ => "boom") ⟨[], []⟩
      ⟨3, 1, 7200, InterviewStatus.scheduled⟩ 1).1 rfl,
   ((send_notification_outcome (fun _ => false) (fun _ => "boom") ⟨[], []⟩
      ⟨3, 1, 7200, InterviewStatus.scheduled⟩ 1).2 rfl).1⟩

/-- Claim C1: with a successful first dispatch, invoking the per-offset
Reminder Evaluator twice in immediate succession for the same
(interview, offset) key leaves exactly one success record and exactly one
transport call: the second invocation sends nothing and writes nothing. -/
theorem reminder_evaluator_idempotent (ok : TransportCall → Bool)
    (err : TransportCall → String) (now : ℚ) (log : List NotificationLog)
    (calls : List TransportCall) (iv : Interview) (hb : ℚ)
    (h1 : was_sent log iv.id hb = false)
    (h2 : should_fire_now iv.interview_date hb now = true)
    (h3 : ok (.interview iv.id hb) = true) :
    send_notification_if_needed ok err now
        (send_notification_if_needed ok err now ⟨log, calls⟩ iv hb) iv hb
      = send_notification_if_needed ok err now ⟨log, calls⟩ iv hb
    ∧ (send_notification_if_needed ok err now ⟨log, calls⟩ iv hb).calls
      = calls ++ [.interview iv.id hb]
    ∧ success_count (send_notification_if_needed ok err now ⟨log, calls⟩ iv hb).log iv.id hb
      = 1 := by
  have hfirst : send_notification_if_needed ok err now ⟨log, calls⟩ iv hb =
      ⟨log ++ [⟨iv.id, "interview", hb, true, none⟩], calls ++ [.interview iv.id hb]⟩ := by
    rw [send_notification_if_needed]
    simp only [h1, h2, Bool.false_eq_true, reduceIte, if_true]
    simp [send_notification, notification_log_create, h3]
  have hsent : was_sent (log ++ [⟨iv.id, "interview", hb, true, none⟩]) iv.id hb = true := by
    rw [was_sent_append]
    simp [was_sent]
  refine ⟨?_, by rw [hfirst], ?_⟩
  · rw [hfirst, send_notification_if_needed]
    simp [hsent]
  · rw [hfirst]
    simp only [success_count, List.countP_append]
    rw [← success_count, success_count_eq_zero_of_not_was_sent h1]
    simp

/-- Witness for C1: a concrete due interview whose first dispatch succeeds;
the double invocation produces one call and one success record. -/
theorem reminder_evaluator_idempotent_witness :
    send_notification_if_needed (fun _ => true) (fun _ => "e") 0
        (send_notification_if_needed (fun _ => true) (fun _ => "e") 0
          ⟨[], []⟩ ⟨5, 2, 3600, InterviewStatus.scheduled⟩ 1)
        ⟨5, 2, 3600, InterviewStatus.scheduled⟩ 1
      = send_notification_if_needed (fun _ => true) (fun _ => "e") 0
          ⟨[], []⟩ ⟨5, 2, 3600, InterviewStatus.scheduled⟩ 1
    ∧ (send_notification_if_needed (fun _ => true) (fun _ => "e") 0
          ⟨[], []⟩ ⟨5, 2, 3600, InterviewStatus.scheduled⟩ 1).calls
      = [TransportCall.interview 5 1]
    ∧ success_count (send_notification_if_needed (fun _ => true) (fun _ => "e") 0
          ⟨[], []⟩ ⟨5, 2, 3600, InterviewStatus.scheduled⟩ 1).log 5 1 = 1 :=
  reminder_evaluator_idempotent (fun _ => true) (fun _ => "e") 0 [] []
    ⟨5, 2, 3600, InterviewStatus.scheduled⟩ 1 rfl (by norm_num [should_fire_now]) rfl

/-! ### Follow-up tick characterization -/

/-- Does the processing of the fetched `pending` list mark `g` as sent?
Exactly when some pending row shares `g`'s id and its transport call
succeeds. -/
def followup_tick_marks (ok : TransportCall → Bool) (pending : List FollowUp)
    (g : FollowUp) : Bool :=
  pending.any fun p => ok (.followup p.id) && decide (g.id = p.id)

lemma followup_tick_marks_cons (ok : TransportCall → Bool) (p : FollowUp)
    (P : List FollowUp) (g : FollowUp) :
    followup_tick_marks ok (p :: P) g =
      ((ok (.followup p.id) && decide (g.id = p.id)) || followup_tick_marks ok P g) := by
  simp [followup_tick_marks]

/-- The store component of the per-pending fold is the pointwise marking of
the store, independent of the transport-call accumulator. -/
lemma foldl_send_followup_fst (ok : TransportCall → Bool) (P : List FollowUp) :
    ∀ (followups : List FollowUp) (calls : List TransportCall),
    (P.foldl (fun acc f => send_followup_notification ok acc.1 acc.2 f) (followups, calls)).1
      = followups.map fun g =>
          if followup_tick_marks ok P g then { g with sent := true } else g := by
  induction P with
  | nil =>
    intro fus calls
    simp [followup_tick_marks]
  | cons p P ih =>
    intro fus calls
    rw [List.foldl_cons, send_followup_notification]
    by_cases hok : ok (.followup p.id)
    · simp only [hok, if_true]
      rw [ih, mark_sent, List.map_map]
      refine List.map_congr_left fun g _ => ?_
      simp only [Function.comp_apply]
      by_cases hid : g.id = p.id
      · rw [if_pos hid]
        have h2 : followup_tick_marks ok P ({ g with sent := true } : FollowUp)
            = followup_tick_marks ok P g := rfl
        have h3 : ({ ({ g with sent := true } : FollowUp) with sent := true })
            = ({ g with sent := true } : FollowUp) := rfl
        rw [h2, h3, ite_self, followup_tick_marks_cons, hok]
        simp [hid]
      · rw [if_neg hid, followup_tick_marks_cons, hok]
        simp [hid]
    · simp only [hok, if_false, Bool.false_eq_true, reduceIte]
      rw [ih]
      refine List.map_congr_left fun g _ => ?_
      simp [followup_tick_marks_cons, hok]

/-- The updated follow-up store after one tick of
`_process_followup_notifications`. -/
lemma process_followup_notifications_fst (ok : TransportCall → Bool) (now : ℚ)
    (followups : List FollowUp) (calls : List TransportCall) :
    (process_followup_notifications ok now followups calls).1
      = followups.map fun g =>
          if followup_tick_marks ok (get_pending followups now) g
          then { g with sent := true } else g := by
  rw [process_followup_notifications, foldl_send_followup_fst]

/-- A row whose own transport call fails is never marked. -/
lemma followup_tick_marks_false_of_ok_false {ok : TransportCall → Bool}
    {P : List FollowUp} {g : FollowUp} (h : ok (.followup g.id) = false) :
    followup_tick_marks ok P g = false := by
  rw [followup_tick_marks, List.any_eq_false]
  intro p _
  by_cases hid : g.id = p.id
  · rw [← hid, h]
    simp
  · simp [hid]

/-- Setting `sent` on an already-sent row changes nothing. -/
lemma set_sent_eq_self {g : FollowUp} (h : g.sent = true) :
    ({ g with sent := true } : FollowUp) = g := by
  cases g
  simp_all

lemma mem_get_pending {followups : List FollowUp} {now : ℚ} {f : FollowUp} :
    f ∈ get_pending followups now ↔
      f ∈ followups ∧ f.sent = false ∧ f.reminder_date ≤ now := by
  rw [get_pending, (List.perm_insertionSort _ _).mem_iff, List.mem_filter]
  simp

/-- Claim C6: the follow-up `sent` flag is monotone — a delivered follow-up
is never selected again and survives any tick unchanged; a follow-up whose
transport call fails keeps `sent = false`, survives the tick unchanged, and
is selected again by every later tick whose `now` has reached its fire
time; and any row that ends a tick with `sent = true` arose from a store
row either already delivered or whose id had a successful transport call. -/
theorem followup_lifecycle (ok : TransportCall → Bool) (now : ℚ)
    (followups : List FollowUp) (calls : List TransportCall) :
    (∀ g ∈ followups, g.sent = true → ∀ now2 : ℚ, g ∉ get_pending followups now2)
    ∧ (∀ g ∈ followups, g.sent = true →
        g ∈ (process_followup_notifications ok now followups calls).1)
    ∧ (∀ g ∈ followups, ok (.followup g.id) = false →
        g ∈ (process_followup_notifications ok now followups calls).1)
    ∧ (∀ g ∈ followups, ok (.followup g.id) = false → g.sent = false →
        ∀ now2 : ℚ, g.reminder_date ≤ now2 →
          g ∈ get_pending (process_followup_notifications ok now followups calls).1 now2)
    ∧ (∀ g2 ∈ (process_followup_notifications ok now followups calls).1,
        g2.sent = true →
          ∃ g ∈ followups, g2 = { g with sent := true } ∧
            (g.sent = true ∨ ok (.followup g.id) = true)) := by
  have hmem_tick : ∀ g ∈ followups, ok (.followup g.id) = false →
      g ∈ (process_followup_notifications ok now followups calls).1 := by
    intro g hg hok
    rw [process_followup_notifications_fst]
    have : (if followup_tick_marks ok (get_pending followups now) g
        then ({ g with sent := true } : FollowUp) else g) = g := by
      rw [followup_tick_marks_false_of_ok_false hok]
      simp
    exact this ▸ List.mem_map_of_mem _ hg
  refine ⟨?_, ?_, hmem_tick, ?_, ?_⟩
  · intro g _ hsent now2 hmem
    rw [mem_get_pending] at hmem
    rw [hsent] at hmem
    exact absurd hmem.2.1 (by simp)
  · intro g hg hsent
    rw [process_followup_notifications_fst]
    have : (if followup_tick_marks ok (get_pending followups now) g
        then ({ g with sent := true } : FollowUp) else g) = g := by
      rw [set_sent_eq_self hsent]
      simp
    exact this ▸ List.mem_map_of_mem _ hg
  · intro g hg hok hsent now2 hdue
    rw [mem_get_pending]
    exact ⟨hmem_tick g hg hok, hsent, hdue⟩
  · intro g2 hg2 hsent
    rw [process_followup_notifications_fst] at hg2
    obtain ⟨g, hg, hφ⟩ := List.mem_map.mp hg2
    by_cases hm : followup_tick_marks ok (get_pending followups now) g
    · rw [if_pos hm] at hφ
      rw [followup_tick_marks, List.any_eq_true] at hm
      obtain ⟨p, _, hp⟩ := hm
      rw [Bool.and_eq_true, decide_eq_true_eq] at hp
      exact ⟨g, hg, hφ.symm, Or.inr (hp.2 ▸ hp.1)⟩
    · rw [if_neg hm] at hφ
      rw [← hφ] at hsent
      exact ⟨g, hg, by rw [← hφ, set_sent_eq_self hsent], Or.inl hsent⟩

/-- Witness for C6 on a concrete store: row 1 (failing transport, due)
stays unsent and is re-selected; row 2 (already delivered) is untouched and
never selected. -/
theorem followup_lifecycle_witness :
    (⟨2, 1, 0, "b", true⟩ : FollowUp) ∉ get_pending
        [⟨1, 1, 0, "a", false⟩, ⟨2, 1, 0, "b", true⟩] 100
    ∧ (⟨2, 1, 0, "b", true⟩ : FollowUp) ∈
        (process_followup_notifications (fun _ => false) 100
          [⟨1, 1, 0, "a", false⟩, ⟨2, 1, 0, "b", true⟩] []).1
    ∧ (⟨1, 1, 0, "a", false⟩ : FollowUp) ∈ get_pending
        (process_followup_notifications (fun _ => false) 100
          [⟨1, 1, 0, "a", false⟩, ⟨2, 1, 0, "b", true⟩] []).1 200 :=
  ⟨(followup_lifecycle (fun _ => false) 100
      [⟨1, 1, 0, "a", false⟩, ⟨2, 1, 0, "b", true⟩] []).1
      ⟨2, 1, 0, "b", true⟩ (by decide) rfl 100,
   (followup_lifecycle (fun _ => false) 100
      [⟨1, 1, 0, "a", false⟩, ⟨2, 1, 0, "b", true⟩] []).2.1
      ⟨2, 1, 0, "b", true⟩ (by decide) rfl,
   (followup_lifecycle (fun _ => false) 100
      [⟨1, 1, 0, "a", false⟩, ⟨2, 1, 0, "b", true⟩] []).2.2.2.1
      ⟨1, 1, 0, "a", false⟩ (by decide) rfl rfl 200 (by norm_num)⟩

instance : IsTotal FollowUp fun a b => a.reminder_date ≤ b.reminder_date :=
  ⟨fun a b => le_total a.reminder_date b.reminder_date⟩

instance : IsTrans FollowUp fun a b => a.reminder_date ≤ b.reminder_date :=
  ⟨fun _ _ _ => le_trans⟩

/-- Claim C7: one tick processes exactly the follow-ups with
`sent = false` and `reminder_date <= now` — no tolerance window narrows
the selection — in ascending fire-time order; and the follow-up store
produced by a full scan is entirely independent of the notification
settings, so quiet hours never suppress follow-ups. -/
theorem followup_selection_spec (followups : List FollowUp) (now : ℚ) :
    (∀ f : FollowUp, f ∈ get_pending followups now ↔
        f ∈ followups ∧ f.sent = false ∧ f.reminder_date ≤ now)
    ∧ List.Pairwise (fun a b => a.reminder_date ≤ b.reminder_date)
        (get_pending followups now)
    ∧ (∀ (settingsOf settingsOf2 : Nat → Except String (Option NotificationSettings))
        (ok : TransportCall → Bool) (err err2 : TransportCall → String)
        (interviews interviews2 : List Interview) (log log2 : List NotificationLog)
        (now_tod now_tod2 : Nat),
        (check_and_send_notifications settingsOf ok err
            interviews followups log now now_tod).followups
          = (check_and_send_notifications settingsOf2 ok err2
              interviews2 followups log2 now now_tod2).followups) := by
  refine ⟨fun f => mem_get_pending, ?_, ?_⟩
  · exact List.sorted_insertionSort _ _
  · intro settingsOf settingsOf2 ok err err2 interviews interviews2 log log2 now_tod now_tod2
    simp only [check_and_send_notifications, process_followup_notifications_fst]

/-- Claim C4: failure isolation inside one scan.  With two due, eligible
interviews where the first dispatch raises a transport exception, the
second interview is still evaluated and dispatched (the scan records the
first failure and the second success); likewise a failing follow-up send
does not prevent the next due follow-up from being sent and marked. -/
theorem scan_failure_isolation
    (settingsOf : Nat → Except String (Option NotificationSettings))
    (ok : TransportCall → Bool) (err : TransportCall → String)
    (now : ℚ) (now_tod : Nat) (log : List NotificationLog) (calls : List TransportCall)
    (a b : Interview) (sa sb : NotificationSettings) (hba hbb : ℚ)
    (f g : FollowUp) (calls2 : List TransportCall)
    (ha1 : settingsOf a.user_id = .ok (some sa)) (ha2 : sa.enabled = true)
    (ha3 : sa.quiet_hours_enabled = false) (ha4 : sa.notification_times = [hba])
    (hb1 : settingsOf b.user_id = .ok (some sb)) (hb2 : sb.enabled = true)
    (hb3 : sb.quiet_hours_enabled = false) (hb4 : sb.notification_times = [hbb])
    (hw1 : was_sent log a.id hba = false) (hw2 : was_sent log b.id hbb = false)
    (hf1 : should_fire_now a.interview_date hba now = true)
    (hf2 : should_fire_now b.interview_date hbb now = true)
    (hok1 : ok (.interview a.id hba) = false)
    (hok2 : ok (.interview b.id hbb) = true)
    (hg1 : f.sent = false) (hg2 : g.sent = false) (hg3 : f.id ≠ g.id)
    (hg4 : f.reminder_date ≤ now) (hg5 : g.reminder_date ≤ now)
    (hg6 : f.reminder_date ≤ g.reminder_date)
    (hok3 : ok (.followup f.id) = false) (hok4 : ok (.followup g.id) = true) :
    [a, b].foldl (process_interview_notifications settingsOf ok err now now_tod)
        ⟨log, calls⟩
      = ⟨log ++ [⟨a.id, "interview", hba, false, some (err (.interview a.id hba))⟩,
                 ⟨b.id, "interview", hbb, true, none⟩],
         calls ++ [.interview a.id hba, .interview b.id hbb]⟩
    ∧ process_followup_notifications ok now [f, g] calls2
      = ([f, { g with sent := true }], calls2 ++ [.followup f.id, .followup g.id]) := by
  constructor
  · have hstep1 : process_interview_notifications settingsOf ok err now now_tod
        ⟨log, calls⟩ a
        = ⟨log ++ [⟨a.id, "interview", hba, false, some (err (.interview a.id hba))⟩],
           calls ++ [.interview a.id hba]⟩ := by
      rw [process_interview_notifications]
      rw [ha1]
      simp only [ha2, Bool.not_true, Bool.false_eq_true, reduceIte,
        quiet_hours_blocks, ha3, Bool.false_and, ha4, List.foldl_cons, List.foldl_nil]
      rw [send_notification_if_needed]
      simp only [hw1, Bool.false_eq_true, reduceIte, hf1, if_true]
      simp [send_notification, notification_log_create, hok1]
    have hsent2 : was_sent
        (log ++ [⟨a.id, "interview", hba, false, some (err (.interview a.id hba))⟩])
        b.id hbb = false := by
      rw [was_sent_append, hw2]
      simp [was_sent]
    have hstep2 : process_interview_notifications settingsOf ok err now now_tod
        ⟨log ++ [⟨a.id, "interview", hba, false, some (err (.interview a.id hba))⟩],
         calls ++ [.interview a.id hba]⟩ b
        = ⟨log ++ [⟨a.id, "interview", hba, false, some (err (.interview a.id hba))⟩,
                   ⟨b.id, "interview", hbb, true, none⟩],
           calls ++ [.interview a.id hba, .interview b.id hbb]⟩ := by
      rw [process_interview_notifications]
      rw [hb1]
      simp only [hb2, Bool.not_true, Bool.false_eq_true, reduceIte,
        quiet_hours_blocks, hb3, Bool.false_and, hb4, List.foldl_cons, List.foldl_nil]
      rw [send_notification_if_needed]
      simp only [hsent2, Bool.false_eq_true, reduceIte, hf2, if_true]
      simp [send_notification, notification_log_create, hok2]
    rw [List.foldl_cons, hstep1, List.foldl_cons, hstep2, List.foldl_nil]
  · have hpend : get_pending [f, g] now = [f, g] := by
      rw [get_pending]
      simp [hg1, hg2, hg4, hg5, List.insertionSort, List.orderedInsert, hg6]
    rw [process_followup_notifications, hpend]
    simp only [List.foldl_cons, List.foldl_nil, send_followup_notification]
    simp only [hok3, Bool.false_eq_true, reduceIte, hok4, if_true]
    rw [mark_sent]
    simp [hg3, Ne.symm hg3]

/-- Witness for C4: a concrete scan with two due interviews and two due
follow-ups where the first of each fails in transport; the second of each
is still dispatched. -/
theorem scan_failure_isolation_witness :
    [(⟨1, 1, 0, InterviewStatus.scheduled⟩ : Interview),
     ⟨2, 2, 0, InterviewStatus.scheduled⟩].foldl
        (process_interview_notifications
          (fun _ => .ok (some ⟨true, [0], false, none, none⟩))
          (fun c => match c with
            | .interview i _ => decide (i = 2)
            | .followup i => decide (i = 2))
          (fun _ => "boom") 0 0)
        ⟨[], []⟩
      = ⟨[⟨1, "interview", 0, false, some "boom"⟩, ⟨2, "interview", 0, true, none⟩],
         [.interview 1 0, .interview 2 0]⟩
    ∧ process_followup_notifications
        (fun c => match c with
          | .interview i _ => decide (i = 2)
          | .followup i => decide (i = 2))
        0 [⟨1, 1, 0, "x", false⟩, ⟨2, 1, 0, "y", false⟩] []
      = ([⟨1, 1, 0, "x", false⟩, ⟨2, 1, 0, "y", true⟩],
         [.followup 1, .followup 2]) :=
  scan_failure_isolation
    (fun _ => .ok (some ⟨true, [0], false, none, none⟩))
    (fun c => match c with
      | .interview i _ => decide (i = 2)
      | .followup i => decide (i = 2))
    (fun _ => "boom") 0 0 [] []
    ⟨1, 1, 0, InterviewStatus.scheduled⟩ ⟨2, 2, 0, InterviewStatus.scheduled⟩
    ⟨true, [0], false, none, none⟩ ⟨true, [0], false, none, none⟩ 0 0
    ⟨1, 1, 0, "x", false⟩ ⟨2, 1, 0, "y", false⟩ []
    rfl rfl rfl rfl rfl rfl rfl rfl rfl rfl
    (by norm_num [should_fire_now]) (by norm_num [should_fire_now])
    rfl rfl rfl rfl (by decide) (by norm_num) (by norm_num) (by norm_num)
    rfl rfl

end InterviewBot
